import Mathlib

/-!
Verification development for the air-quality-index agent repository.

The definitions below are a shallow embedding of the Python source:
  src/utils/validators.py           (validate_location, validate_aqi,
                                     validate_summary, build_telex_response)
  src/services/telex_integration.py (extract_location_gemini,
                                     handle_telex_event, the AQI classifier)
  src/main.py                       (a2a_aqi_endpoint JSON-RPC dispatch)
Remote capabilities (the Gemini language model and the WAQI AQI provider)
are passed in as oracle parameters, matching how the code treats any
remote failure as a missing result.
-/

namespace AQIAgent

/-- The apostrophe character, kept as a named constant so the literal
summary strings of the source can be reproduced. -/
def apos : String := String.mk [Char.ofNat 39]

/-- Whitespace in the sense of Python `str.strip` and the regex class
`\s`, restricted to the ASCII range: space, tab, newline, carriage
return, vertical tab, form feed. -/
def pyIsSpace (c : Char) : Bool :=
  c = ' ' || c = Char.ofNat 9 || c = Char.ofNat 10 || c = Char.ofNat 13 ||
  c = Char.ofNat 11 || c = Char.ofNat 12

/-- A word character in the sense of the regex class `\w` (ASCII):
letters, digits, underscore.  Used for the `\b` word boundaries of the
stoplist regex in validators.py line 19. -/
def isWordChar (c : Char) : Bool := c.isAlphanum || c = '_'

/-- Python `str.strip()` on a list of characters: drop whitespace from
both ends. -/
def pyStripL (l : List Char) : List Char :=
  ((l.dropWhile pyIsSpace).reverse.dropWhile pyIsSpace).reverse

/-- Python `str.strip()`. -/
def pyStrip (s : String) : String := String.mk (pyStripL s.data)

/-- Case-insensitive literal match of the pattern `p` at the start of
`cs`; returns the remaining characters on success.  Models matching one
alternative of the stoplist regex under the `re.I` flag. -/
def ciStarts : List Char → List Char → Option (List Char)
  | [], cs => some cs
  | _ :: _, [] => none
  | p :: ps, c :: cs => if c.toLower = p.toLower then ciStarts ps cs else none

/-- The stoplist alternatives of validators.py line 19 in pattern order:
`right now`, `today`, `currently`, `please`, `now`. -/
def stopwordList : List (List Char) :=
  [String.data "right now", String.data "today", String.data "currently",
   String.data "please", String.data "now"]

/-- The closing `\b` of the stoplist regex: the character after the
matched alternative (which ends in a letter) must be absent or a
non-word character. -/
def endBoundaryOk (r : List Char) : Bool :=
  match r with
  | [] => true
  | c :: _ => !(isWordChar c)

/-- Try to match one stoplist alternative at the current position,
including the closing word boundary. -/
def tryStopOne (w : List Char) (cs : List Char) : Option (List Char) :=
  match ciStarts w cs with
  | some r => if endBoundaryOk r then some r else none
  | none => none

/-- First alternative that matches, in pattern order. -/
def firstSome : List (List Char) → (List Char → Option (List Char)) → Option (List Char)
  | [], _ => none
  | w :: ws, f =>
    match f w with
    | some r => some r
    | none => firstSome ws f

/-- Try the whole stoplist alternation at the current position. -/
def tryStop (cs : List Char) : Option (List Char) :=
  firstSome stopwordList (fun w => tryStopOne w cs)

/-- One left-to-right pass of
`re.sub(r"\b(right now|today|currently|please|now)\b", "", s, flags=re.I)`
(validators.py line 19).  `prevWord` records whether the character just
before the current position is a word character; every stoplist
alternative begins with a letter, so the opening `\b` holds exactly when
`prevWord` is false.  After a removal, scanning resumes at the end of
the match, whose last character is a letter, so `prevWord` becomes true.
The fuel argument only serves termination and starts at the length of
the list, which every step strictly decreases in characters consumed. -/
def removeStopAux : Nat → Bool → List Char → List Char
  | 0, _, l => l
  | _ + 1, _, [] => []
  | fuel + 1, prevWord, c :: rest =>
    if prevWord then
      c :: removeStopAux fuel (isWordChar c) rest
    else
      match tryStop (c :: rest) with
      | some rem => removeStopAux fuel true rem
      | none => c :: removeStopAux fuel (isWordChar c) rest

/-- `re.sub` of the stoplist pattern with the empty string, validators.py
line 19 and telex_integration.py line 67. -/
def removeStopwords (s : String) : String :=
  String.mk (removeStopAux s.data.length false s.data)

/-- `re.sub(r"[^a-zA-Z\s,]", "", s)` (validators.py line 20): keep only
ASCII letters, whitespace and commas. -/
def cleanChars (s : String) : String :=
  String.mk (s.data.filter (fun c => c.isAlpha || pyIsSpace c || c = ','))

/-- validators.py lines 14-21, `validate_location`.  Returns `none` for a
missing or whitespace-only input; otherwise strips, removes the stoplist
words, removes every character that is not a letter, whitespace or a
comma, strips again, and returns `none` when nothing remains. -/
def validate_location : Option String → Option String
  | none => none
  | some loc =>
    if pyStrip loc = "" then none
    else if pyStrip (cleanChars (removeStopwords (pyStrip loc))) = "" then none
    else some (pyStrip (cleanChars (removeStopwords (pyStrip loc))))

/-- validators.py lines 23-31, `validate_aqi`, on an already-numeric
input: `none` stays `none`, and an integer survives exactly when it lies
in the inclusive range 0..500. -/
def validate_aqi : Option Int → Option Int
  | none => none
  | some n => if 0 ≤ n ∧ n ≤ 500 then some n else none

/-- The fallback summary of validators.py line 35. -/
def summaryFallback : String :=
  "Sorry, I couldn" ++ apos ++ "t generate a summary."

/-- validators.py lines 33-36, `validate_summary`: fallback text for a
missing or whitespace-only summary, else the stripped summary. -/
def validate_summary : Option String → String
  | none => summaryFallback
  | some t => if pyStrip t = "" then summaryFallback else pyStrip t

/-- models.py lines 4-5: the inbound event payload. -/
structure TelexEventData where
  text : String
deriving DecidableEq, Repr

/-- models.py lines 7-9: the inbound event. -/
structure TelexEvent where
  type : String
  data : TelexEventData
deriving DecidableEq, Repr

/-- models.py lines 11-14: the response payload. -/
structure TelexResponseData where
  location : Option String
  aqi : Option Int
  summary : String
deriving DecidableEq, Repr

/-- models.py lines 16-18: the response envelope. -/
structure TelexResponse where
  type : String
  data : TelexResponseData
deriving DecidableEq, Repr

/-- validators.py lines 38-49, `build_telex_response`: apply the three
sanitizers and assemble a kind-`message` response. -/
def build_telex_response (location : Option String) (aqi : Option Int)
    (summary : Option String) : TelexResponse :=
  TelexResponse.mk "message"
    (TelexResponseData.mk (validate_location location) (validate_aqi aqi)
      (validate_summary summary))

/-- telex_integration.py lines 117-128: the AQI severity classifier, an
ascending chain of inclusive upper bounds with first match winning. -/
def classify (aqi : Int) : String :=
  if aqi ≤ 50 then "good"
  else if aqi ≤ 100 then "moderate"
  else if aqi ≤ 150 then "unhealthy for sensitive groups"
  else if aqi ≤ 200 then "unhealthy"
  else if aqi ≤ 300 then "very unhealthy"
  else "hazardous"

/-- telex_integration.py line 99: the summary used when no location could
be determined. -/
def noLocMsg : String :=
  "Sorry, I couldn" ++ apos ++ "t determine the location from your message."

/-- telex_integration.py line 113: the summary used when the AQI fetch
fails for a resolved location. -/
def fetchFailMsg (location : String) : String :=
  "Sorry, I couldn" ++ apos ++ "t fetch the air quality for " ++ location ++ "."

/-- telex_integration.py line 129: the summary used on a successful AQI
fetch and classification. -/
def successMsg (location : String) (aqi : Int) : String :=
  "Air quality in " ++ location ++ " is " ++ classify aqi ++
  " (AQI " ++ toString aqi ++ ")."

/-- Python `str.split()` with no separator: split on runs of whitespace,
discarding empty pieces. -/
def pySplitAux : List Char → List Char → List String
  | [], acc => if acc.isEmpty then [] else [String.mk acc.reverse]
  | c :: cs, acc =>
    if pyIsSpace c then
      if acc.isEmpty then pySplitAux cs []
      else String.mk acc.reverse :: pySplitAux cs []
    else pySplitAux cs (c :: acc)

/-- Python `str.split()`. -/
def pySplit (s : String) : List String := pySplitAux s.data []

/-- Python `str.isalpha()` (ASCII model): non-empty and all letters. -/
def pyIsAlphaStr (s : String) : Bool :=
  !s.data.isEmpty && s.data.all Char.isAlpha

/-- A character the capture group `[A-Za-z\s]` of the fallback regex
(telex_integration.py line 64) accepts. -/
def isGroupChar (c : Char) : Bool := c.isAlpha || pyIsSpace c

/-- Attempt of the pattern `in\s+([A-Za-z\s]+)[\?\.]?` at the current
position (telex_integration.py line 64): a literal lowercase `in`, one or
more whitespace characters (greedy), then a non-empty greedy run of
letters and whitespace as the capture group.  When every character after
the whitespace run is outside the group class, the regex engine
backtracks one whitespace character into the group, which therefore
needs at least two whitespace characters after `in`.  The optional
trailing `[\?\.]?` never constrains the match. -/
def matchInAt (l : List Char) : Option (List Char) :=
  match l with
  | c1 :: c2 :: v =>
    if c1 = 'i' ∧ c2 = 'n' then
      if (v.takeWhile pyIsSpace).length = 0 then none
      else if ((v.drop (v.takeWhile pyIsSpace).length).takeWhile isGroupChar).length ≠ 0 then
        some ((v.drop (v.takeWhile pyIsSpace).length).takeWhile isGroupChar)
      else if 2 ≤ (v.takeWhile pyIsSpace).length then some [' ']
      else none
    else none
  | _ => none

/-- `re.search` of the fallback pattern: try the match at each position
from the left, returning the first capture group found. -/
def regexSearchIn : List Char → Option (List Char)
  | [] => none
  | c :: cs =>
    match matchInAt (c :: cs) with
    | some g => some g
    | none => regexSearchIn cs

/-- telex_integration.py lines 63-69: the regex fallback.  On a match,
the captured group is stripped, passed through the stoplist removal of
line 67, and sanitized by `validate_location`. -/
def regexFallback (text : String) : Option String :=
  match regexSearchIn text.data with
  | none => none
  | some g => validate_location (some (removeStopwords (pyStrip (String.mk g))))

/-- telex_integration.py lines 36-71, `extract_location_gemini`.  The
remote Gemini call is an oracle `gem`: `none` models an exception or an
unusable reply, `some r` models a reply with text `r`.  A single
alphabetic token is sanitized directly and returned, even when the
sanitization yields `none`.  Otherwise the sanitized Gemini reply is
used, and only when that is missing does the regex fallback run. -/
def extract_location_gemini (gem : Option String) (text0 : String) : Option String :=
  if (pySplit (pyStrip text0)).length == 1 && pyIsAlphaStr (pyStrip text0) then
    validate_location (some (pyStrip text0))
  else
    match (match gem with
           | some r => validate_location (some (pyStrip r))
           | none => none) with
    | some l => some l
    | none => regexFallback (pyStrip text0)

/-- The process-wide session memory `SESSION_MEMORY`
(telex_integration.py line 33), an association list from session key to
the session dictionary.  The code only ever reads and writes the single
inner key `last_location`, so a session dictionary is modelled as the
optional value of that key. -/
def Store : Type := List (String × Option String)

/-- `SESSION_MEMORY.get(key, {}).get("last_location")`: a missing session
and a session without a remembered location both read as `none`. -/
def storeGet : Store → String → Option String
  | [], _ => none
  | (k, v) :: rest, key => if k = key then v else storeGet rest key

/-- `SESSION_MEMORY[key] = session` (telex_integration.py line 108). -/
def storeSet (st : Store) (key : String) (v : Option String) : Store :=
  (key, v) :: st

/-- `session_id or "default"` (telex_integration.py lines 88, 108):
Python `or` replaces both a missing and an empty identifier. -/
def sessionKey : Option String → String
  | none => "default"
  | some s => if s = "" then "default" else s

/-- Python truthiness of an optional string: `none` and the empty string
are falsy.  Used for `if not location` and `if last_location`
(telex_integration.py lines 92, 95). -/
def truthyOpt : Option String → Option String
  | none => none
  | some s => if s = "" then none else some s

/-- telex_integration.py lines 91-98: the location resolution of one
event.  The extraction of lines 36-71 runs first; a falsy result falls
back to the remembered `last_location` of the session. -/
def resolveLocation (gem : Option String) (text : String) (last : Option String) :
    Option String :=
  match truthyOpt (extract_location_gemini gem text) with
  | some l => some l
  | none => truthyOpt last

/-- The observable outcome of one call of `handle_telex_event`: the
response, the session memory after the call, and the list of locations
the AQI fetch was invoked on. -/
structure HandlerResult where
  resp : TelexResponse
  store : Store
  fetchCalls : List String

/-- telex_integration.py lines 75-134, `handle_telex_event`, on its
normal (non-exception) control flow.  The Gemini call is the oracle
`gem`; the AQI provider is the oracle `fetch`, with `none` covering the
missing-token, non-ok-status and transport-error cases of
aqi_service.py.  When no location resolves, the early return of lines
101-104 leaves the session memory untouched and never fetches.
Otherwise the location is recorded in the session (lines 107-108), the
AQI is fetched (line 111), the summary is chosen (lines 112-130), and
the response passes through `build_telex_response` (line 133). -/
def handle_telex_event (gem : Option String) (fetch : String → Option Int)
    (event : TelexEvent) (session_id : Option String) (st : Store) : HandlerResult :=
  match resolveLocation gem (pyStrip event.data.text)
      (storeGet st (sessionKey session_id)) with
  | none =>
    HandlerResult.mk
      (TelexResponse.mk "message" (TelexResponseData.mk none none noLocMsg)) st []
  | some location =>
    HandlerResult.mk
      (build_telex_response (some location) (fetch location)
        (some (match fetch location with
               | none => fetchFailMsg location
               | some a => successMsg location a)))
      (storeSet st (sessionKey session_id) (some location))
      [location]

/-- telex_integration.py lines 136-141: the top-level `except` branch of
`handle_telex_event` converts an exception with description `e` into a
kind-`error` response whose summary is `str(e)`, bypassing the
validators. -/
def handle_error (e : String) : TelexResponse :=
  TelexResponse.mk "error" (TelexResponseData.mk none none e)

/-- Modelled from the spec: the repository imports its JSON-RPC envelope
models from `modelss.a2a` (main.py lines 10-13), a module absent from
the source tree.  Following spec section 6, Transport C, a message part
carries a `kind` and an optional text. -/
structure MessagePart where
  kind : String
  text : Option String
deriving DecidableEq, Repr

/-- Modelled from the spec: an agent-to-agent message is a list of
parts. -/
structure A2AMsg where
  parts : List MessagePart
deriving DecidableEq, Repr

/-- Modelled from the spec: the `params` of a JSON-RPC request may carry
a single message object or a list of messages. -/
structure RpcParams where
  message : Option A2AMsg
  messages : Option (List A2AMsg)
deriving DecidableEq, Repr

/-- The inbound JSON-RPC body as read by main.py lines 126-140:
`jsonrpc` and `id` may be absent (`idField = none` models `"id" not in
body`), `method = none` models a body the envelope model rejects. -/
structure RpcBody where
  jsonrpc : Option String
  idField : Option String
  method : Option String
  params : RpcParams
deriving DecidableEq, Repr

/-- The branch the endpoint takes: a JSON-RPC error object with a
numeric code and an optional details payload, or an invocation of the
core handler with the extracted text. -/
inductive RpcOutcome where
  | rpcError (code : Int) (details : Option String) (id : Option String)
  | handled (text : String)
deriving DecidableEq, Repr

/-- main.py lines 143-154: text extraction for `message/send`: the
single `message`, else the last element of `messages`; the text is the
first part whose kind is `text` with truthy text, defaulting to the
empty string. -/
def firstTextPart : List MessagePart → String
  | [] => ""
  | p :: ps =>
    if p.kind = "text" then
      match p.text with
      | some t => if t = "" then firstTextPart ps else t
      | none => firstTextPart ps
    else firstTextPart ps

/-- main.py lines 143-154. -/
def extractSend (params : RpcParams) : String :=
  match params.message with
  | some m => firstTextPart m.parts
  | none =>
    match params.messages with
    | some l =>
      match l.getLast? with
      | some m => firstTextPart m.parts
      | none => ""
    | none => ""

/-- main.py lines 155-170: text extraction for `execute`.  Python
`messages or message` takes `message` when `messages` is absent or an
empty list; a list is normalized to its last element. -/
def extractExec (params : RpcParams) : String :=
  match params.messages with
  | some l =>
    if l.isEmpty then
      match params.message with
      | some m => firstTextPart m.parts
      | none => ""
    else
      match l.getLast? with
      | some m => firstTextPart m.parts
      | none => ""
  | none =>
    match params.message with
    | some m => firstTextPart m.parts
    | none => ""

/-- main.py lines 126-182: the JSON-RPC dispatch of the `/a2a/aqi`
endpoint.  A body whose `jsonrpc` is not `"2.0"` or whose `id` is absent
is rejected with code -32600 before anything else runs.  A body the
envelope model rejects (modelled: a missing `method`) raises inside
`JSONRPCRequest(**body)` and is answered by the `except` branch of lines
217-229 with code -32603 and a details payload.  A well-formed request
with an unsupported method is rejected with code -32601.  Otherwise the
text is extracted and the core handler is invoked. -/
def a2a_dispatch (body : RpcBody) : RpcOutcome :=
  if body.jsonrpc ≠ some "2.0" ∨ body.idField = none then
    RpcOutcome.rpcError (-32600) none body.idField
  else
    match body.method with
    | none => RpcOutcome.rpcError (-32603) (some "Invalid JSON-RPC request payload") body.idField
    | some m =>
      if m = "message/send" then RpcOutcome.handled (extractSend body.params)
      else if m = "execute" then RpcOutcome.handled (extractExec body.params)
      else RpcOutcome.rpcError (-32601) none body.idField

/-- The observable outcome of one `/a2a/aqi` request. -/
structure A2AResult where
  outcome : RpcOutcome
  resp : Option TelexResponse
  store : Store
  fetchCalls : List String

/-- main.py lines 184-215: an accepted request is wrapped into a
kind-`message` Telex event and passed to `handle_telex_event` with no
explicit session identifier, so the handler runs under its default
session `"default"` for every adapter caller. -/
def a2a_handle (gem : Option String) (fetch : String → Option Int)
    (body : RpcBody) (st : Store) : A2AResult :=
  match a2a_dispatch body with
  | RpcOutcome.handled t =>
    A2AResult.mk (RpcOutcome.handled t)
      (some (handle_telex_event gem fetch
        (TelexEvent.mk "message" (TelexEventData.mk t)) (some "default") st).resp)
      (handle_telex_event gem fetch
        (TelexEvent.mk "message" (TelexEventData.mk t)) (some "default") st).store
      (handle_telex_event gem fetch
        (TelexEvent.mk "message" (TelexEventData.mk t)) (some "default") st).fetchCalls
  | o => A2AResult.mk o none st []

/-- First-success-wins composition of two optional results, used to state
the resolver strategy order. -/
def orElseOpt (a b : Option String) : Option String :=
  match a with
  | some l => some l
  | none => b

/-- The Gemini strategy of the resolver: the sanitized reply of the
language model, `none` on failure (telex_integration.py lines 52-60). -/
def gemSanitized : Option String → Option String
  | some r => validate_location (some (pyStrip r))
  | none => none

/-- Whether the fallback pattern `in\s` can fire at the current
position: the characters `i`, `n` followed by a whitespace character. -/
def isInWsHere (l : List Char) : Bool :=
  match l with
  | c1 :: c2 :: c3 :: _ => c1 == 'i' && c2 == 'n' && pyIsSpace c3
  | _ => false

/-- Whether the substring `in` followed by whitespace occurs anywhere in
the character list. -/
def hasInWs : List Char → Bool
  | [] => false
  | c :: cs => isInWsHere (c :: cs) || hasInWs cs

/-- A `params` object carrying neither a message nor a message list. -/
def emptyParams : RpcParams := RpcParams.mk none none

/-- A concrete well-formed `message/send` request asking about Lagos. -/
def witnessBody1 : RpcBody :=
  RpcBody.mk (some "2.0") (some "1") (some "message/send")
    (RpcParams.mk (some (A2AMsg.mk [MessagePart.mk "text" (some "Lagos")])) none)

/-- A concrete well-formed `execute` request with no extractable
location in its text. -/
def witnessBody2 : RpcBody :=
  RpcBody.mk (some "2.0") (some "2") (some "execute")
    (RpcParams.mk none (some [A2AMsg.mk [MessagePart.mk "text" (some "what about here")]]))

/-! Helper lemmas about the string primitives. -/

lemma head?_append_left_list (l1 l2 : List Char) (c : Char) (h : l1.head? = some c) :
    (l1 ++ l2).head? = some c := by
  cases l1 with
  | nil => cases h
  | cons a l => simpa using h

lemma getLast?_append_right_list (l1 l2 : List Char) (c : Char) (h : l2.getLast? = some c) :
    (l1 ++ l2).getLast? = some c := by
  rw [← List.head?_reverse] at h ⊢
  rw [List.reverse_append]
  exact head?_append_left_list _ _ _ h

lemma head?_data_append (s t : String) (c : Char) (h : s.data.head? = some c) :
    (s ++ t).data.head? = some c :=
  head?_append_left_list s.data t.data c h

lemma getLast?_data_append (s t : String) (c : Char) (h : t.data.getLast? = some c) :
    (s ++ t).data.getLast? = some c :=
  getLast?_append_right_list s.data t.data c h

lemma dropWhile_eq_self_of_head (p : Char → Bool) (l : List Char)
    (h : ∀ c, l.head? = some c → p c = false) : l.dropWhile p = l := by
  cases l with
  | nil => rfl
  | cons a t =>
    have ha := h a rfl
    simp [List.dropWhile_cons, ha]

lemma pyStripL_eq_self (l : List Char)
    (h1 : ∀ c, l.head? = some c → pyIsSpace c = false)
    (h2 : ∀ c, l.getLast? = some c → pyIsSpace c = false) : pyStripL l = l := by
  have h3 : ∀ c, l.reverse.head? = some c → pyIsSpace c = false := by
    intro c hc
    exact h2 c (by rw [← List.head?_reverse]; exact hc)
  unfold pyStripL
  rw [dropWhile_eq_self_of_head _ _ h1, dropWhile_eq_self_of_head _ _ h3,
    List.reverse_reverse]

lemma pyStrip_fixed (s : String) (c d : Char)
    (h1 : s.data.head? = some c) (hc : pyIsSpace c = false)
    (h2 : s.data.getLast? = some d) (hd : pyIsSpace d = false) : pyStrip s = s := by
  unfold pyStrip
  rw [pyStripL_eq_self s.data
    (by intro e he; rw [h1] at he; cases he; exact hc)
    (by intro e he; rw [h2] at he; cases he; exact hd)]

lemma ne_empty_of_head (s : String) (c : Char) (h : s.data.head? = some c) : s ≠ "" := by
  intro he
  rw [he] at h
  exact Option.noConfusion h

lemma mem_pyStripL (c : Char) (l : List Char) (h : c ∈ pyStripL l) : c ∈ l := by
  unfold pyStripL at h
  rw [List.mem_reverse] at h
  have h2 := (List.dropWhile_sublist pyIsSpace).subset h
  rw [List.mem_reverse] at h2
  exact (List.dropWhile_sublist pyIsSpace).subset h2

/-! Helper lemmas about the validators. -/

lemma validate_summary_fixed (s : String) (h : pyStrip s = s) (h2 : ¬s = "") :
    validate_summary (some s) = s := by
  simp [validate_summary, h, h2]

lemma validate_summary_ne_empty (o : Option String) : validate_summary o ≠ "" := by
  cases o with
  | none => decide
  | some t =>
    by_cases h : pyStrip t = ""
    · simp [validate_summary, h]
      decide
    · simp [validate_summary, h]

lemma validate_location_some_ne (o : Option String) (l : String)
    (h : validate_location o = some l) : l ≠ "" := by
  cases o with
  | none => simp [validate_location] at h
  | some s =>
    by_cases h1 : pyStrip s = ""
    · simp [validate_location, h1] at h
    · by_cases h2 : pyStrip (cleanChars (removeStopwords (pyStrip s))) = ""
      · simp [validate_location, h1, h2] at h
      · simp [validate_location, h1, h2] at h
        subst h
        exact h2

lemma validate_location_chars (o : Option String) (l : String)
    (h : validate_location o = some l) :
    ∀ c ∈ l.data, (c.isAlpha || pyIsSpace c || c = ',') = true := by
  cases o with
  | none => simp [validate_location] at h
  | some s =>
    by_cases h1 : pyStrip s = ""
    · simp [validate_location, h1] at h
    · by_cases h2 : pyStrip (cleanChars (removeStopwords (pyStrip s))) = ""
      · simp [validate_location, h1, h2] at h
      · simp [validate_location, h1, h2] at h
        intro c hc
        rw [← h] at hc
        have h3 : c ∈ (cleanChars (removeStopwords (pyStrip s))).data :=
          mem_pyStripL c _ hc
        unfold cleanChars at h3
        exact (List.mem_filter.mp h3).2

lemma regexFallback_some_ne (t l : String) (h : regexFallback t = some l) : l ≠ "" := by
  unfold regexFallback at h
  cases hs : regexSearchIn t.data with
  | none => rw [hs] at h; exact Option.noConfusion h
  | some g =>
    rw [hs] at h
    exact validate_location_some_ne _ _ h

lemma extract_some_ne (gem : Option String) (t l : String)
    (h : extract_location_gemini gem t = some l) : l ≠ "" := by
  unfold extract_location_gemini at h
  by_cases hc : ((pySplit (pyStrip t)).length == 1 && pyIsAlphaStr (pyStrip t)) = true
  · rw [if_pos hc] at h
    exact validate_location_some_ne _ _ h
  · rw [if_neg hc] at h
    cases gem with
    | none => exact regexFallback_some_ne _ _ h
    | some r =>
      replace h : (match validate_location (some (pyStrip r)) with
                   | some x => some x
                   | none => regexFallback (pyStrip t)) = some l := h
      cases hv : validate_location (some (pyStrip r)) with
      | none => rw [hv] at h; exact regexFallback_some_ne _ _ h
      | some x =>
        rw [hv] at h
        cases h
        exact validate_location_some_ne _ _ hv

/-! Helper lemmas about the session store and the resolver. -/

lemma storeGet_storeSet (st : Store) (k : String) (v : Option String) :
    storeGet (storeSet st k v) k = v := by
  unfold storeSet storeGet
  simp

lemma truthyOpt_some (l : String) (h : l ≠ "") : truthyOpt (some l) = some l := by
  simp [truthyOpt, h]

lemma resolveLocation_of_extract (gem : Option String) (t : String) (last : Option String)
    (l : String) (h : extract_location_gemini gem t = some l) :
    resolveLocation gem t last = some l := by
  unfold resolveLocation
  rw [h, truthyOpt_some _ (extract_some_ne _ _ _ h)]

lemma resolveLocation_of_extract_none (gem : Option String) (t : String)
    (last : Option String) (h : extract_location_gemini gem t = none) :
    resolveLocation gem t last = truthyOpt last := by
  unfold resolveLocation
  rw [h]
  rfl

/-! The literal summary strings are already stripped: they start and end
with a non-whitespace character whatever the interpolated location is. -/

lemma fetchFailMsg_strip (L : String) : pyStrip (fetchFailMsg L) = fetchFailMsg L := by
  apply pyStrip_fixed _ 'S' '.'
  · unfold fetchFailMsg
    apply head?_data_append
    apply head?_data_append
    apply head?_data_append
    apply head?_data_append
    rfl
  · decide
  · unfold fetchFailMsg
    apply getLast?_data_append
    rfl
  · decide

lemma fetchFailMsg_ne_empty (L : String) : fetchFailMsg L ≠ "" := by
  apply ne_empty_of_head _ 'S'
  unfold fetchFailMsg
  apply head?_data_append
  apply head?_data_append
  apply head?_data_append
  apply head?_data_append
  rfl

lemma successMsg_strip (L : String) (a : Int) : pyStrip (successMsg L a) = successMsg L a := by
  apply pyStrip_fixed _ 'A' '.'
  · unfold successMsg
    apply head?_data_append
    apply head?_data_append
    apply head?_data_append
    apply head?_data_append
    apply head?_data_append
    apply head?_data_append
    rfl
  · decide
  · unfold successMsg
    apply getLast?_data_append
    rfl
  · decide

lemma successMsg_ne_empty (L : String) (a : Int) : successMsg L a ≠ "" := by
  apply ne_empty_of_head _ 'A'
  unfold successMsg
  apply head?_data_append
  apply head?_data_append
  apply head?_data_append
  apply head?_data_append
  apply head?_data_append
  apply head?_data_append
  rfl

/-! Path lemmas for the event handler. -/

lemma handle_of_resolve_none (gem : Option String) (fetch : String → Option Int)
    (ev : TelexEvent) (sid : Option String) (st : Store)
    (h : resolveLocation gem (pyStrip ev.data.text) (storeGet st (sessionKey sid)) = none) :
    handle_telex_event gem fetch ev sid st =
      HandlerResult.mk
        (TelexResponse.mk "message" (TelexResponseData.mk none none noLocMsg)) st [] := by
  unfold handle_telex_event
  rw [h]

lemma handle_of_resolve_some (gem : Option String) (fetch : String → Option Int)
    (ev : TelexEvent) (sid : Option String) (st : Store) (L : String)
    (h : resolveLocation gem (pyStrip ev.data.text) (storeGet st (sessionKey sid)) = some L) :
    handle_telex_event gem fetch ev sid st =
      HandlerResult.mk
        (build_telex_response (some L) (fetch L)
          (some (match fetch L with
                 | none => fetchFailMsg L
                 | some a => successMsg L a)))
        (storeSet st (sessionKey sid) (some L)) [L] := by
  unfold handle_telex_event
  rw [h]

/-! Lemmas about the fallback regex search. -/

lemma matchInAt_reduce (c1 c2 : Char) (v : List Char) :
    matchInAt (c1 :: c2 :: v) =
      if c1 = 'i' ∧ c2 = 'n' then
        if (v.takeWhile pyIsSpace).length = 0 then none
        else if ((v.drop (v.takeWhile pyIsSpace).length).takeWhile isGroupChar).length ≠ 0 then
          some ((v.drop (v.takeWhile pyIsSpace).length).takeWhile isGroupChar)
        else if 2 ≤ (v.takeWhile pyIsSpace).length then some [' ']
        else none
      else none := rfl

lemma matchInAt_none_of (l : List Char) (h : isInWsHere l = false) :
    matchInAt l = none := by
  match l with
  | [] => rfl
  | [c] => rfl
  | c1 :: c2 :: v =>
    by_cases hin : c1 = 'i' ∧ c2 = 'n'
    · cases v with
      | nil =>
        rw [matchInAt_reduce, if_pos hin]
        rfl
      | cons c3 v2 =>
        have h3 : pyIsSpace c3 = false := by
          simp [isInWsHere, hin.1, hin.2] at h
          exact h
        rw [matchInAt_reduce, if_pos hin]
        simp [List.takeWhile_cons, h3]
    · rw [matchInAt_reduce, if_neg hin]

lemma regexSearchIn_none (cs : List Char) (h : hasInWs cs = false) :
    regexSearchIn cs = none := by
  induction cs with
  | nil => rfl
  | cons c cs ih =>
    rw [hasInWs] at h
    rw [Bool.or_eq_false_iff] at h
    unfold regexSearchIn
    rw [matchInAt_none_of _ h.1]
    exact ih h.2

/-! Claim theorems. -/

/-- Claim C1: for every integer AQI, the classifier assigns the label of
the ascending inclusive range the value falls in, with first match
winning: 0..50 good, 51..100 moderate, 101..150 unhealthy for sensitive
groups, 151..200 unhealthy, 201..300 very unhealthy, above 300
hazardous; the listed boundary values classify exactly as claimed; and
on a successful fetch the response summary of the handler is the literal
`Air quality in location is label (AQI aqi).` -/
theorem c1_classifier :
    (∀ a : Int, 0 ≤ a → a ≤ 50 → classify a = "good") ∧
    (∀ a : Int, 51 ≤ a → a ≤ 100 → classify a = "moderate") ∧
    (∀ a : Int, 101 ≤ a → a ≤ 150 → classify a = "unhealthy for sensitive groups") ∧
    (∀ a : Int, 151 ≤ a → a ≤ 200 → classify a = "unhealthy") ∧
    (∀ a : Int, 201 ≤ a → a ≤ 300 → classify a = "very unhealthy") ∧
    (∀ a : Int, 300 < a → classify a = "hazardous") ∧
    (classify 50 = "good" ∧ classify 51 = "moderate" ∧ classify 100 = "moderate" ∧
      classify 101 = "unhealthy for sensitive groups" ∧
      classify 150 = "unhealthy for sensitive groups" ∧
      classify 151 = "unhealthy" ∧ classify 200 = "unhealthy" ∧
      classify 201 = "very unhealthy" ∧ classify 300 = "very unhealthy" ∧
      classify 301 = "hazardous") ∧
    (∀ (gem : Option String) (fetch : String → Option Int) (ev : TelexEvent)
        (sid : Option String) (st : Store) (L : String) (a : Int),
      resolveLocation gem (pyStrip ev.data.text) (storeGet st (sessionKey sid)) = some L →
      fetch L = some a →
      (handle_telex_event gem fetch ev sid st).resp.data.summary = successMsg L a) := by
  refine ⟨?_, ?_, ?_, ?_, ?_, ?_, by decide, ?_⟩
  · intro a h1 h2
    unfold classify
    split_ifs <;> first | rfl | omega
  · intro a h1 h2
    unfold classify
    split_ifs <;> first | rfl | omega
  · intro a h1 h2
    unfold classify
    split_ifs <;> first | rfl | omega
  · intro a h1 h2
    unfold classify
    split_ifs <;> first | rfl | omega
  · intro a h1 h2
    unfold classify
    split_ifs <;> first | rfl | omega
  · intro a h1
    unfold classify
    split_ifs <;> first | rfl | omega
  · intro gem fetch ev sid st L a hres hfetch
    rw [handle_of_resolve_some _ _ _ _ _ _ hres]
    show validate_summary (some (match fetch L with
      | none => fetchFailMsg L
      | some a => successMsg L a)) = successMsg L a
    rw [hfetch]
    exact validate_summary_fixed _ (successMsg_strip L a) (successMsg_ne_empty L a)

/-- Witness for C1: AQI 42 is good, and a concrete run of the handler on
`Lagos` with the fetch answering 42 produces the claimed summary. -/
theorem c1_classifier_witness :
    classify 42 = "good" ∧
    (handle_telex_event none (fun _ => some 42)
      (TelexEvent.mk "message" (TelexEventData.mk "Lagos")) none []).resp.data.summary =
      successMsg "Lagos" 42 := by
  constructor
  · exact c1_classifier.1 42 (by decide) (by decide)
  · exact c1_classifier.2.2.2.2.2.2.2 none (fun _ => some 42)
      (TelexEvent.mk "message" (TelexEventData.mk "Lagos")) none [] "Lagos" 42
      (by decide) rfl

/-- Claim C2 counterexample: on the single alphabetic token `today`, the
single-token shortcut sanitizes to nothing and the resolver answers
`none` even though the language model (here answering `Paris`, whose
sanitization succeeds) was never consulted; so a failing strategy does
not pass control to the next strategy and the resolver can yield `none`
while strategy 2 would have yielded a location. -/
theorem c2_counterexample :
    resolveLocation (some "Paris") "today" none = none ∧
    validate_location (some (pyStrip "Paris")) = some "Paris" ∧
    validate_location (some (pyStrip "today")) = none := by
  refine ⟨by decide, by decide, by decide⟩

/-- Claim C2 amended: the resolver tries the strategies in order with
the first non-none result winning, except that the single-alphabetic-
token shortcut is committal: when it applies, its sanitization is the
whole extraction result, and a `none` there skips the language-model and
regex strategies and falls directly to the session memory.  On
multi-token input the order is language model, then regex fallback, then
session memory. -/
theorem c2_strategy_order (gem : Option String) (text : String) (last : Option String) :
    resolveLocation gem text last =
      if (pySplit (pyStrip text)).length == 1 && pyIsAlphaStr (pyStrip text) then
        orElseOpt (validate_location (some (pyStrip text))) (truthyOpt last)
      else
        orElseOpt (gemSanitized gem)
          (orElseOpt (regexFallback (pyStrip text)) (truthyOpt last)) := by
  have hext : extract_location_gemini gem text =
      if (pySplit (pyStrip text)).length == 1 && pyIsAlphaStr (pyStrip text) then
        validate_location (some (pyStrip text))
      else orElseOpt (gemSanitized gem) (regexFallback (pyStrip text)) := by
    unfold extract_location_gemini orElseOpt gemSanitized
    rfl
  by_cases hc : ((pySplit (pyStrip text)).length == 1 && pyIsAlphaStr (pyStrip text)) = true
  · rw [if_pos hc]
    rw [if_pos hc] at hext
    cases hv : validate_location (some (pyStrip text)) with
    | some l =>
      rw [hv] at hext
      rw [resolveLocation_of_extract _ _ last _ hext]
      rfl
    | none =>
      rw [hv] at hext
      rw [resolveLocation_of_extract_none _ _ last hext]
      rfl
  · rw [if_neg hc]
    rw [if_neg hc] at hext
    cases hg : gemSanitized gem with
    | some l =>
      rw [hg] at hext
      rw [resolveLocation_of_extract _ _ last _ hext]
      rfl
    | none =>
      rw [hg] at hext
      cases hr : regexFallback (pyStrip text) with
      | some l =>
        rw [hr] at hext
        rw [resolveLocation_of_extract _ _ last _ hext]
        rfl
      | none =>
        rw [hr] at hext
        rw [resolveLocation_of_extract_none _ _ last hext]
        rfl

/-- Claim C3: when the location resolution of an event yields nothing
(extraction failed and the session remembers no usable location), the
handler returns the kind-`message` response with no location, no AQI and
the could-not-determine summary, performs no AQI fetch, and leaves the
session store exactly as it was. -/
theorem c3_unresolved_leaves_state (gem : Option String) (fetch : String → Option Int)
    (ev : TelexEvent) (sid : Option String) (st : Store)
    (h : resolveLocation gem (pyStrip ev.data.text) (storeGet st (sessionKey sid)) = none) :
    (handle_telex_event gem fetch ev sid st).resp =
      TelexResponse.mk "message" (TelexResponseData.mk none none noLocMsg) ∧
    (handle_telex_event gem fetch ev sid st).store = st ∧
    (handle_telex_event gem fetch ev sid st).fetchCalls = [] := by
  rw [handle_of_resolve_none _ _ _ _ _ h]
  exact ⟨rfl, rfl, rfl⟩

/-- Witness for C3: a concrete unresolvable event on a brand-new store. -/
theorem c3_unresolved_leaves_state_witness :
    (handle_telex_event none (fun _ => some 7)
      (TelexEvent.mk "message" (TelexEventData.mk "??? !!!")) none []).resp =
      TelexResponse.mk "message" (TelexResponseData.mk none none noLocMsg) ∧
    (handle_telex_event none (fun _ => some 7)
      (TelexEvent.mk "message" (TelexEventData.mk "??? !!!")) none []).store = [] ∧
    (handle_telex_event none (fun _ => some 7)
      (TelexEvent.mk "message" (TelexEventData.mk "??? !!!")) none []).fetchCalls = [] :=
  c3_unresolved_leaves_state none (fun _ => some 7)
    (TelexEvent.mk "message" (TelexEventData.mk "??? !!!")) none [] (by decide)

/-- Claim C4 counterexample: the top-level exception path of the handler
(telex_integration.py lines 136-141) copies the raw exception
description into the summary without any validation, so an exception
with an empty description produces a kind-`error` response whose summary
is the empty string, refuting the claim that every path returns a
non-empty, sanitizer-produced summary. -/
theorem c4_counterexample :
    (handle_error "").data.summary = "" ∧ (handle_error "").type = "error" :=
  ⟨rfl, rfl⟩

/-- Claim C4 amended: on every non-exception path the handler returns a
non-empty summary and every field of the response is the output of the
corresponding sanitizer; on the top-level exception path the response is
kind-`error` with no location, no AQI and the raw (unvalidated, possibly
empty) error description as summary. -/
theorem c4_sanitized_fields :
    (∀ (gem : Option String) (fetch : String → Option Int) (ev : TelexEvent)
        (sid : Option String) (st : Store),
      (handle_telex_event gem fetch ev sid st).resp.data.summary ≠ "" ∧
      ∃ lo aq su, (handle_telex_event gem fetch ev sid st).resp.data =
        TelexResponseData.mk (validate_location lo) (validate_aqi aq)
          (validate_summary su)) ∧
    (∀ e : String,
      handle_error e = TelexResponse.mk "error" (TelexResponseData.mk none none e)) := by
  constructor
  · intro gem fetch ev sid st
    cases hres : resolveLocation gem (pyStrip ev.data.text)
        (storeGet st (sessionKey sid)) with
    | none =>
      rw [handle_of_resolve_none _ _ _ _ _ hres]
      constructor
      · show noLocMsg ≠ ""
        decide
      · refine ⟨none, none, some noLocMsg, ?_⟩
        show TelexResponseData.mk none none noLocMsg =
          TelexResponseData.mk (validate_location none) (validate_aqi none)
            (validate_summary (some noLocMsg))
        have hv : validate_summary (some noLocMsg) = noLocMsg := by decide
        rw [hv]
        rfl
    | some L =>
      rw [handle_of_resolve_some _ _ _ _ _ _ hres]
      constructor
      · show validate_summary (some (match fetch L with
          | none => fetchFailMsg L
          | some a => successMsg L a)) ≠ ""
        exact validate_summary_ne_empty _
      · exact ⟨some L, fetch L,
          some (match fetch L with
                | none => fetchFailMsg L
                | some a => successMsg L a), rfl⟩
  · intro e
    rfl

/-- Claim C5: when the location resolves to `L` but the AQI fetch
returns nothing, the handler returns a kind-`message` response with no
AQI and the could-not-fetch summary for `L`, performs no classification
(the summary is the failure text, not the classified text), and still
records `L` as the session's last location. -/
theorem c5_fetch_failure (gem : Option String) (fetch : String → Option Int)
    (ev : TelexEvent) (sid : Option String) (st : Store) (L : String)
    (hres : resolveLocation gem (pyStrip ev.data.text) (storeGet st (sessionKey sid)) = some L)
    (hf : fetch L = none) :
    (handle_telex_event gem fetch ev sid st).resp.type = "message" ∧
    (handle_telex_event gem fetch ev sid st).resp.data.aqi = none ∧
    (handle_telex_event gem fetch ev sid st).resp.data.summary = fetchFailMsg L ∧
    storeGet (handle_telex_event gem fetch ev sid st).store (sessionKey sid) = some L ∧
    (handle_telex_event gem fetch ev sid st).fetchCalls = [L] := by
  rw [handle_of_resolve_some _ _ _ _ _ _ hres]
  refine ⟨rfl, ?_, ?_, ?_, rfl⟩
  · show validate_aqi (fetch L) = none
    rw [hf]
    rfl
  · show validate_summary (some (match fetch L with
      | none => fetchFailMsg L
      | some a => successMsg L a)) = fetchFailMsg L
    rw [hf]
    exact validate_summary_fixed _ (fetchFailMsg_strip L) (fetchFailMsg_ne_empty L)
  · exact storeGet_storeSet st (sessionKey sid) (some L)

/-- Witness for C5: a concrete run on `Lagos` with a failing fetch. -/
theorem c5_fetch_failure_witness :
    (handle_telex_event none (fun _ => none)
      (TelexEvent.mk "message" (TelexEventData.mk "Lagos")) none []).resp.data.summary =
      fetchFailMsg "Lagos" ∧
    storeGet (handle_telex_event none (fun _ => none)
      (TelexEvent.mk "message" (TelexEventData.mk "Lagos")) none []).store
      (sessionKey none) = some "Lagos" := by
  have h := c5_fetch_failure none (fun _ => none)
    (TelexEvent.mk "message" (TelexEventData.mk "Lagos")) none [] "Lagos"
    (by decide) rfl
  exact ⟨h.2.2.1, h.2.2.2.1⟩

/-- Claim C6: `validate_location` returns `none` when the input is empty
after trimming; every successful result is non-empty and consists only
of letters, whitespace and commas (every other character is removed);
the stoplist words are removed case-insensitively anywhere in the string
but only as whole words (`know` and `nowhere` survive); and the worked
examples of the spec hold, including `  Lagos today  ` to `Lagos` and
`???` to `none`. -/
theorem c6_sanitize_location :
    (∀ s : String, pyStrip s = "" → validate_location (some s) = none) ∧
    (∀ (o : Option String) (l : String), validate_location o = some l →
      l ≠ "" ∧ ∀ c ∈ l.data, (c.isAlpha || pyIsSpace c || c = ',') = true) ∧
    (validate_location (some "  Lagos today  ") = some "Lagos") ∧
    (validate_location (some "???") = none) ∧
    (validate_location (some "LAGOS TODAY") = some "LAGOS") ∧
    (validate_location (some "Lagos right now") = some "Lagos") ∧
    (validate_location (some "know") = some "know") ∧
    (validate_location (some "nowhere") = some "nowhere") ∧
    (validate_location (some "now") = none) := by
  refine ⟨?_, ?_, by decide, by decide, by decide, by decide, by decide, by decide,
    by decide⟩
  · intro s h
    simp [validate_location, h]
  · intro o l h
    exact ⟨validate_location_some_ne o l h, validate_location_chars o l h⟩

/-- Witness for C6: the implications applied at concrete inputs. -/
theorem c6_sanitize_location_witness :
    validate_location (some "   ") = none ∧ ("Lagos" : String) ≠ "" := by
  constructor
  · exact c6_sanitize_location.1 "   " (by decide)
  · exact (c6_sanitize_location.2.1 (some "  Lagos today  ") "Lagos" (by decide)).1

/-- Claim C7 counterexample: in `Dublin weather` the word `in` occurs
only as the suffix of `Dublin`, yet the regex fallback (pattern
`in\s+([A-Za-z\s]+)[\?\.]?` with no word boundary) matches it and
extracts `weather`, refuting the claim that such texts yield `none`. -/
theorem c7_counterexample :
    extract_location_gemini none "Dublin weather" = some "weather" ∧
    regexSearchIn (String.data "Dublin weather") = some (String.data "weather") := by
  exact ⟨by decide, by decide⟩

/-- Claim C7 amended: the fallback regex is not anchored to the
standalone word `in`: it can fire on the substring `in` followed by
whitespace even inside a longer word such as `Dublin`, extracting the
letters-and-whitespace run after the occurrence it matches,
stoplist-stripped and sanitized.  The guarantee that survives is
one-directional only: a text containing no substring `in` followed by a
whitespace character makes the fallback yield `none`.  The presence of
such a substring does not guarantee a match (`air in 123` contains
`in` plus whitespace yet yields `none`, because digits fail the capture
class), the match need not be at the leftmost such occurrence
(`nothing in 123 but in Lagos` extracts `Lagos` from the second
standalone `in`), and a standalone word `in` still yields the phrase
after it, as in the spec example. -/
theorem c7_regex_fallback :
    (extract_location_gemini none "Dublin weather" = some "weather") ∧
    (∀ text : String, hasInWs text.data = false → regexFallback text = none) ∧
    (regexFallback "air in 123" = none ∧ hasInWs (String.data "air in 123") = true) ∧
    (extract_location_gemini none "nothing in 123 but in Lagos" = some "Lagos") ∧
    (extract_location_gemini none "What is the air quality in Lagos?" = some "Lagos") := by
  refine ⟨by decide, ?_, ⟨by decide, by decide⟩, by decide, by decide⟩
  intro text h
  unfold regexFallback
  rw [regexSearchIn_none _ h]

/-- Witness for C7: a text with no `in`-plus-whitespace substring makes
the fallback yield nothing. -/
theorem c7_regex_fallback_witness : regexFallback "hello world" = none :=
  c7_regex_fallback.2.1 "hello world" (by decide)

/-- Claim C8: a body whose `jsonrpc` is not `"2.0"` or whose `id` is
absent is answered with error code -32600 and the core handler is never
invoked; a well-formed envelope with a method other than `message/send`
and `execute` is answered with code -32601, again without invoking the
handler; a body the envelope model rejects raises internally and is
answered with code -32603 and a details payload. -/
theorem c8_jsonrpc_codes :
    (∀ body : RpcBody, body.jsonrpc ≠ some "2.0" ∨ body.idField = none →
      a2a_dispatch body = RpcOutcome.rpcError (-32600) none body.idField ∧
      ∀ t, a2a_dispatch body ≠ RpcOutcome.handled t) ∧
    (∀ (body : RpcBody) (m : String), body.jsonrpc = some "2.0" → body.idField ≠ none →
      body.method = some m → m ≠ "message/send" → m ≠ "execute" →
      a2a_dispatch body = RpcOutcome.rpcError (-32601) none body.idField ∧
      ∀ t, a2a_dispatch body ≠ RpcOutcome.handled t) ∧
    (∀ body : RpcBody, body.jsonrpc = some "2.0" → body.idField ≠ none →
      body.method = none →
      a2a_dispatch body =
        RpcOutcome.rpcError (-32603) (some "Invalid JSON-RPC request payload")
          body.idField) := by
  refine ⟨?_, ?_, ?_⟩
  · intro body h
    have hd : a2a_dispatch body = RpcOutcome.rpcError (-32600) none body.idField := by
      unfold a2a_dispatch
      rw [if_pos h]
    refine ⟨hd, fun t ht => ?_⟩
    rw [hd] at ht
    exact RpcOutcome.noConfusion ht
  · intro body m h1 h2 hm hms hex
    have hneg : ¬(body.jsonrpc ≠ some "2.0" ∨ body.idField = none) := by
      intro hcon
      rcases hcon with hA | hB
      · exact hA h1
      · exact h2 hB
    have hd : a2a_dispatch body = RpcOutcome.rpcError (-32601) none body.idField := by
      unfold a2a_dispatch
      rw [if_neg hneg, hm]
      show (if m = "message/send" then RpcOutcome.handled (extractSend body.params)
        else if m = "execute" then RpcOutcome.handled (extractExec body.params)
        else RpcOutcome.rpcError (-32601) none body.idField) =
        RpcOutcome.rpcError (-32601) none body.idField
      rw [if_neg hms, if_neg hex]
    refine ⟨hd, fun t ht => ?_⟩
    rw [hd] at ht
    exact RpcOutcome.noConfusion ht
  · intro body h1 h2 hm
    have hneg : ¬(body.jsonrpc ≠ some "2.0" ∨ body.idField = none) := by
      intro hcon
      rcases hcon with hA | hB
      · exact hA h1
      · exact h2 hB
    unfold a2a_dispatch
    rw [if_neg hneg, hm]

/-- Witness for C8: a concrete body with a missing `jsonrpc` field and a
concrete body with an unsupported method. -/
theorem c8_jsonrpc_codes_witness :
    a2a_dispatch (RpcBody.mk none (some "1") (some "message/send") emptyParams) =
      RpcOutcome.rpcError (-32600) none (some "1") ∧
    a2a_dispatch (RpcBody.mk (some "2.0") (some "1") (some "unknown") emptyParams) =
      RpcOutcome.rpcError (-32601) none (some "1") := by
  constructor
  · exact (c8_jsonrpc_codes.1 _ (Or.inl (by decide))).1
  · exact (c8_jsonrpc_codes.2.1 _ "unknown" rfl (by decide) rfl (by decide) (by decide)).1

/-- Claim C9: every request the adapter accepts runs the core handler
under the single session key `default`, so a location resolved by one
adapter request becomes the remembered fallback of the next: after a
first request resolving `L`, a second request whose own text yields no
location fetches the AQI for `L` and keeps `L` in the shared default
session. -/
theorem c9_default_session_interference (gem1 gem2 : Option String)
    (fetch : String → Option Int) (body1 body2 : RpcBody) (st : Store)
    (t1 t2 L : String)
    (h1 : a2a_dispatch body1 = RpcOutcome.handled t1)
    (h2 : a2a_dispatch body2 = RpcOutcome.handled t2)
    (hx1 : extract_location_gemini gem1 (pyStrip t1) = some L)
    (hx2 : extract_location_gemini gem2 (pyStrip t2) = none) :
    storeGet (a2a_handle gem1 fetch body1 st).store "default" = some L ∧
    (a2a_handle gem2 fetch body2 (a2a_handle gem1 fetch body1 st).store).fetchCalls = [L] ∧
    storeGet (a2a_handle gem2 fetch body2 (a2a_handle gem1 fetch body1 st).store).store
      "default" = some L := by
  have hk : sessionKey (some "default") = "default" := by decide
  have hr1 : resolveLocation gem1
      (pyStrip (TelexEvent.mk "message" (TelexEventData.mk t1)).data.text)
      (storeGet st (sessionKey (some "default"))) = some L :=
    resolveLocation_of_extract _ _ _ _ hx1
  have ha1 : a2a_handle gem1 fetch body1 st = A2AResult.mk (RpcOutcome.handled t1)
      (some (handle_telex_event gem1 fetch
        (TelexEvent.mk "message" (TelexEventData.mk t1)) (some "default") st).resp)
      (handle_telex_event gem1 fetch
        (TelexEvent.mk "message" (TelexEventData.mk t1)) (some "default") st).store
      (handle_telex_event gem1 fetch
        (TelexEvent.mk "message" (TelexEventData.mk t1)) (some "default") st).fetchCalls := by
    unfold a2a_handle
    rw [h1]
  have hg1 : storeGet (a2a_handle gem1 fetch body1 st).store "default" = some L := by
    rw [ha1]
    show storeGet (handle_telex_event gem1 fetch
      (TelexEvent.mk "message" (TelexEventData.mk t1)) (some "default") st).store
      "default" = some L
    rw [handle_of_resolve_some _ _ _ _ _ _ hr1]
    show storeGet (storeSet st (sessionKey (some "default")) (some L)) "default" = some L
    rw [hk]
    exact storeGet_storeSet st "default" (some L)
  have hL : L ≠ "" := extract_some_ne _ _ _ hx1
  have hr2 : resolveLocation gem2
      (pyStrip (TelexEvent.mk "message" (TelexEventData.mk t2)).data.text)
      (storeGet (a2a_handle gem1 fetch body1 st).store (sessionKey (some "default"))) =
      some L := by
    rw [resolveLocation_of_extract_none _ _ _ hx2, hk, hg1]
    exact truthyOpt_some _ hL
  have ha2 : a2a_handle gem2 fetch body2 (a2a_handle gem1 fetch body1 st).store =
      A2AResult.mk (RpcOutcome.handled t2)
      (some (handle_telex_event gem2 fetch
        (TelexEvent.mk "message" (TelexEventData.mk t2)) (some "default")
        (a2a_handle gem1 fetch body1 st).store).resp)
      (handle_telex_event gem2 fetch
        (TelexEvent.mk "message" (TelexEventData.mk t2)) (some "default")
        (a2a_handle gem1 fetch body1 st).store).store
      (handle_telex_event gem2 fetch
        (TelexEvent.mk "message" (TelexEventData.mk t2)) (some "default")
        (a2a_handle gem1 fetch body1 st).store).fetchCalls := by
    unfold a2a_handle
    rw [h2]
  refine ⟨hg1, ?_, ?_⟩
  · rw [ha2]
    show (handle_telex_event gem2 fetch
      (TelexEvent.mk "message" (TelexEventData.mk t2)) (some "default")
      (a2a_handle gem1 fetch body1 st).store).fetchCalls = [L]
    rw [handle_of_resolve_some _ _ _ _ _ _ hr2]
  · rw [ha2]
    show storeGet (handle_telex_event gem2 fetch
      (TelexEvent.mk "message" (TelexEventData.mk t2)) (some "default")
      (a2a_handle gem1 fetch body1 st).store).store "default" = some L
    rw [handle_of_resolve_some _ _ _ _ _ _ hr2]
    show storeGet (storeSet (a2a_handle gem1 fetch body1 st).store
      (sessionKey (some "default")) (some L)) "default" = some L
    rw [hk]
    exact storeGet_storeSet _ "default" (some L)

/-- Witness for C9: the two concrete adapter requests run in sequence;
the second request fetches the AQI for Lagos, the location of the first
request, although its own text names no location. -/
theorem c9_default_session_interference_witness :
    storeGet (a2a_handle none (fun _ => none) witnessBody1 []).store "default" =
      some "Lagos" ∧
    (a2a_handle none (fun _ => none) witnessBody2
      (a2a_handle none (fun _ => none) witnessBody1 []).store).fetchCalls = ["Lagos"] := by
  have h := c9_default_session_interference none none (fun _ => none)
    witnessBody1 witnessBody2 [] "Lagos" "what about here" "Lagos"
    (by decide) (by decide) (by decide) (by decide)
  exact ⟨h.1, h.2.1⟩

/-- Claim C10 counterexample: sanitization is not idempotent on its
successes: `to-day` sanitizes to `today` (the hyphen removal creates a
stoplist word), but sanitizing `today` again yields `none`, not
`today`. -/
theorem c10_counterexample :
    validate_location (some "to-day") = some "today" ∧
    validate_location (some "today") = none := by
  exact ⟨by decide, by decide⟩

/-- Claim C10 amended: the second sanitization that `build_telex_response`
applies to the resolved location is real: the response carries
`validate_location` of the resolved location, which can differ from it
and in particular can be `none` while the session keeps the stored
value, because removing disallowed characters can create a new stoplist
word. -/
theorem c10_second_sanitization (gem : Option String) (fetch : String → Option Int)
    (ev : TelexEvent) (sid : Option String) (st : Store) (L : String)
    (hres : resolveLocation gem (pyStrip ev.data.text) (storeGet st (sessionKey sid)) = some L) :
    (handle_telex_event gem fetch ev sid st).resp.data.location =
      validate_location (some L) ∧
    storeGet (handle_telex_event gem fetch ev sid st).store (sessionKey sid) = some L := by
  rw [handle_of_resolve_some _ _ _ _ _ _ hres]
  exact ⟨rfl, storeGet_storeSet _ _ _⟩

/-- Witness for C10: with the language model answering `to-day`, the
resolved location is `today`; the response reports no location while the
session remembers `today`. -/
theorem c10_second_sanitization_witness :
    (handle_telex_event (some "to-day") (fun _ => some 42)
      (TelexEvent.mk "message" (TelexEventData.mk "what about that")) none
      []).resp.data.location = none ∧
    storeGet (handle_telex_event (some "to-day") (fun _ => some 42)
      (TelexEvent.mk "message" (TelexEventData.mk "what about that")) none []).store
      (sessionKey none) = some "today" := by
  have h := c10_second_sanitization (some "to-day") (fun _ => some 42)
    (TelexEvent.mk "message" (TelexEventData.mk "what about that")) none [] "today"
    (by decide)
  refine ⟨?_, h.2⟩
  rw [h.1]
  decide

end AQIAgent
